import Mathlib

/-!
Verification of the generator runtime (`sdk/src/runtime.rs`).

The runtime mediates a line-delimited JSON-RPC-style protocol between a host
process and a code-generator plugin.  We shallowly embed the runtime: JSON
values, the protocol codec, the filesystem, the generation pipeline and the
session loop are all modelled as pure Lean functions; Rust panics are modelled
as `Except.error` / `Outcome.panicked`, `std::process::exit` as
`Outcome.exited`, and the process's streams as an event trace.

External collaborators that are not part of the source under verification
(serde's JSON codec, the schema compiler `parse_schema`, `build_schema`,
`validate_names`, the emission function, `rustfmt`, `prisma_cli`) are modelled
from the spec as injected capabilities in an `Env` record or as abstract
events.
-/

/-! ## JSON values

Modelled from the spec: the protocol carries one JSON object per line.  We
use mutual inductives so that structural recursion and induction over nested
arrays/objects stay simple.  Numbers are integers (the protocol ids and the
payloads in the claims never need fractions).  Object fields keep their order,
matching serde_json's struct serialization. -/

mutual

inductive Json where
| null : Json
| bool : Bool → Json
| num : Int → Json
| str : String → Json
| arr : JsonList → Json
| obj : JsonFields → Json
deriving DecidableEq

inductive JsonList where
| nil : JsonList
| cons : Json → JsonList → JsonList
deriving DecidableEq

inductive JsonFields where
| nil : JsonFields
| cons : String → Json → JsonFields → JsonFields
deriving DecidableEq

end

/-- Look up the first field with the given key, as serde's derived
deserializer does for the fields it needs (unknown fields are ignored). -/
def JsonFields.find : JsonFields → String → Option Json
| .nil, _ => none
| .cons k v rest, key => if k = key then some v else rest.find key

/-! ## Rendering (serde_json serialization, modelled from the spec) -/

/-- The decimal digit character for `n % 10`. -/
def digitChar (n : Nat) : Char := Char.ofNat (48 + n % 10)

/-- Fuelled decimal digits of a natural number, most significant first. -/
def natDigitsAux : Nat → Nat → List Char
| 0, _ => []
| f + 1, n => if n < 10 then [digitChar n] else natDigitsAux f (n / 10) ++ [digitChar n]

/-- Decimal digits of a natural number. -/
def natDigits (n : Nat) : List Char := natDigitsAux (n + 1) n

/-- Decimal rendering of an integer. -/
def renderInt (n : Int) : List Char :=
  if n < 0 then '-' :: natDigits n.natAbs else natDigits n.toNat

/-- JSON string escaping for one character (the escapes serde_json uses that
can occur in this development; in particular a newline is always escaped). -/
def escapeChar (c : Char) : List Char :=
  if c = '"' then ['\\', '"']
  else if c = '\\' then ['\\', '\\']
  else if c = '\n' then ['\\', 'n']
  else if c = '\t' then ['\\', 't']
  else if c = '\r' then ['\\', 'r']
  else [c]

/-- JSON string escaping. -/
def escapeChars : List Char → List Char
| [] => []
| c :: cs => escapeChar c ++ escapeChars cs

/-- A rendered JSON string literal. -/
def renderString (s : String) : List Char :=
  '"' :: escapeChars s.toList ++ ['"']

mutual

/-- Compact rendering of a JSON value (as serde_json's `to_vec` emits it). -/
def renderJson : Json → List Char
| .null => "null".toList
| .bool true => "true".toList
| .bool false => "false".toList
| .num n => renderInt n
| .str s => renderString s
| .arr xs => '[' :: renderArrItems xs ++ [']']
| .obj fs => '\x7b' :: renderFieldItems fs ++ ['\x7d']

/-- Comma-separated rendering of array items. -/
def renderArrItems : JsonList → List Char
| .nil => []
| .cons x .nil => renderJson x
| .cons x (.cons y rest) => renderJson x ++ ',' :: renderArrItems (.cons y rest)

/-- Comma-separated rendering of object fields. -/
def renderFieldItems : JsonFields → List Char
| .nil => []
| .cons k v .nil => renderString k ++ ':' :: renderJson v
| .cons k v (.cons k2 v2 rest) =>
    renderString k ++ ':' :: renderJson v ++ ',' :: renderFieldItems (.cons k2 v2 rest)

end

/-! ## Parsing (serde_json deserialization, modelled from the spec)

A fuelled recursive-descent parser sufficient for the protocol lines: objects,
arrays, strings with the common escapes, integers, booleans and null. -/

/-- Drop leading JSON whitespace. -/
def skipWs : List Char → List Char
| [] => []
| c :: cs => if c = ' ' ∨ c = '\n' ∨ c = '\t' ∨ c = '\r' then skipWs cs else c :: cs

/-- If `lead` is a leading run of `cs`, return the remainder. -/
def stripLead : List Char → List Char → Option (List Char)
| [], cs => some cs
| _, [] => none
| p :: ps, c :: cs => if p = c then stripLead ps cs else none

/-- Is `c` a decimal digit? -/
def isDigitCh (c : Char) : Bool := 48 ≤ c.toNat ∧ c.toNat ≤ 57

/-- Accumulate a run of decimal digits into a natural number. -/
def digitsToNat (ds : List Char) : Nat :=
  ds.foldl (fun a c => a * 10 + (c.toNat - 48)) 0

/-- Parse the body of a JSON string after the opening quote; returns the
decoded characters and the input after the closing quote. -/
def parseStringBody : Nat → List Char → Option (List Char × List Char)
| 0, _ => none
| _ + 1, [] => none
| f + 1, c :: cs =>
  if c = '"' then some ([], cs)
  else if c = '\\' then
    match cs with
    | [] => none
    | e :: cs2 =>
      let dec : Option Char :=
        if e = 'n' then some '\n'
        else if e = 't' then some '\t'
        else if e = 'r' then some '\r'
        else if e = '"' then some '"'
        else if e = '\\' then some '\\'
        else if e = '/' then some '/'
        else none
      match dec with
      | none => none
      | some d =>
        match parseStringBody f cs2 with
        | none => none
        | some (body, rest) => some (d :: body, rest)
  else
    match parseStringBody f cs with
    | none => none
    | some (body, rest) => some (c :: body, rest)

mutual

/-- Parse one JSON value; returns the value and the remaining input. -/
def parseValue : Nat → List Char → Option (Json × List Char)
| 0, _ => none
| f + 1, input =>
  match skipWs input with
  | [] => none
  | c :: cs =>
    if c = 'n' then (stripLead "ull".toList cs).map (fun r => (Json.null, r))
    else if c = 't' then (stripLead "rue".toList cs).map (fun r => (Json.bool true, r))
    else if c = 'f' then (stripLead "alse".toList cs).map (fun r => (Json.bool false, r))
    else if c = '"' then
      match parseStringBody (cs.length + 1) cs with
      | none => none
      | some (body, rest) => some (Json.str body.asString, rest)
    else if c = '\x7b' then
      match skipWs cs with
      | '\x7d' :: rest => some (Json.obj .nil, rest)
      | other => (parseFieldsRest f other).map (fun (fs, r) => (Json.obj fs, r))
    else if c = '[' then
      match skipWs cs with
      | ']' :: rest => some (Json.arr .nil, rest)
      | other => (parseItemsRest f other).map (fun (xs, r) => (Json.arr xs, r))
    else if c = '-' then
      match cs.takeWhile isDigitCh with
      | [] => none
      | ds => some (Json.num (-(digitsToNat ds : Int)), cs.drop ds.length)
    else if isDigitCh c then
      let ds := (c :: cs).takeWhile isDigitCh
      some (Json.num (digitsToNat ds : Int), (c :: cs).drop ds.length)
    else none

/-- Parse the fields of an object, positioned at the first key. -/
def parseFieldsRest : Nat → List Char → Option (JsonFields × List Char)
| 0, _ => none
| f + 1, input =>
  match skipWs input with
  | '"' :: cs =>
    match parseStringBody (cs.length + 1) cs with
    | none => none
    | some (key, afterKey) =>
      match skipWs afterKey with
      | ':' :: afterColon =>
        match parseValue f afterColon with
        | none => none
        | some (v, afterVal) =>
          match skipWs afterVal with
          | ',' :: more =>
            (parseFieldsRest f more).map (fun (fs, r) => (JsonFields.cons key.asString v fs, r))
          | '\x7d' :: rest => some (JsonFields.cons key.asString v .nil, rest)
          | _ => none
      | _ => none
  | _ => none

/-- Parse the items of an array, positioned at the first item. -/
def parseItemsRest : Nat → List Char → Option (JsonList × List Char)
| 0, _ => none
| f + 1, input =>
  match parseValue f input with
  | none => none
  | some (v, afterVal) =>
    match skipWs afterVal with
    | ',' :: more => (parseItemsRest f more).map (fun (xs, r) => (JsonList.cons v xs, r))
    | ']' :: rest => some (JsonList.cons v .nil, rest)
    | _ => none

end

/-- Parse a complete JSON document (trailing whitespace allowed). -/
def parseJson (s : String) : Option Json :=
  match parseValue (s.length + 1) s.toList with
  | none => none
  | some (j, rest) => if skipWs rest = [] then some j else none

/-! ## Protocol envelopes (`jsonrpc` module, modelled from the spec) -/

/-- Modelled from the spec: a request id is an integer or a string. -/
inductive RpcId where
| num : Int → RpcId
| str : String → RpcId
deriving DecidableEq

/-- The JSON form of a request id. -/
def idToJson : RpcId → Json
| .num n => .num n
| .str s => .str s

/-- Decode a request id from JSON. -/
def idOfJson : Json → Option RpcId
| .num n => some (.num n)
| .str s => some (.str s)
| _ => none

/-- Modelled from the spec: the `jsonrpc::Request` envelope
`\x7bmethod, id, params\x7d` (the `jsonrpc` module is not part of the source
under verification). -/
structure Request where
  method : String
  id : RpcId
  params : Json
deriving DecidableEq

/-- Decode a request envelope from a JSON document (extra fields ignored,
as serde's derived deserializer does by default). -/
def requestOfJson : Json → Option Request
| .obj fs =>
  match fs.find "method", fs.find "id", fs.find "params" with
  | some (.str m), some idj, some p => (idOfJson idj).map fun i => ⟨m, i, p⟩
  | _, _, _ => none
| _ => none

/-- Modelled from the spec: the Protocol Codec's request decode — parse one
input line as JSON and read off the request envelope (this is
`serde_json::from_str::<jsonrpc::Request>` in the source). -/
def decodeRequest (line : String) : Option Request :=
  (parseJson line).bind requestOfJson

/-! ## External schema-compiler values (modelled from the spec)

`datamodel::parse_schema`, `build_schema`, `GenerateArgs` and
`validate_names` live outside the source under verification; their values are
carriers whose only role is identity. -/

/-- Modelled from the spec: the configuration half of the schema compiler's
output. -/
structure Configuration where
  val : String
deriving DecidableEq

/-- Modelled from the spec: the compiled datamodel. -/
structure Datamodel where
  val : String
deriving DecidableEq

/-- Modelled from the spec: the derived schema representation built by
`build_schema`. -/
structure Schema where
  val : String
deriving DecidableEq

/-- Modelled from the spec: `GenerateArgs` bundles the compiled datamodel,
the derived schema, the raw datamodel text and the datasources; built only
after the datamodel compiles. -/
structure GenerateArgs where
  dml : Datamodel
  schema : Schema
  dmmf_str : String
  datasources : JsonList
deriving DecidableEq

/-! ## EngineManifest (DMMF) payload -/

/-- Modelled from the spec: the `generator` part of the EngineManifest —
an output path-like value (resolved to a string) and a config map. -/
structure EngineGenerator where
  output : String
  config : JsonFields
deriving DecidableEq

/-- Modelled from the spec: the EngineManifest (DMMF) payload of a
`generate` request. -/
structure EngineDMMF where
  datamodel : String
  generator : EngineGenerator
  datasources : JsonList
deriving DecidableEq

/-- Modelled from the spec: strict field-by-field decode of the
EngineManifest from the request params (this is the
`serde_path_to_error::deserialize` step in the source); any shape mismatch —
in particular a missing required field such as `generator.output` — fails. -/
def decodeEngineManifest : Json → Option EngineDMMF
| .obj fs =>
  match fs.find "datamodel", fs.find "generator", fs.find "datasources" with
  | some (.str dm), some (.obj gfs), some (.arr ds) =>
    match gfs.find "output", gfs.find "config" with
    | some (.str out), some (.obj cfg) => some ⟨dm, ⟨out, cfg⟩, ds⟩
    | _, _ => none
  | _, _, _ => none
| _ => none

/-! ## Filesystem model

Paths are component lists (`Path::new` splitting on the separator); the
filesystem is a set of directories plus a map from file paths to contents.
Rust panics in filesystem code are surfaced as `Option String` messages. -/

/-- A filesystem path, as its components. -/
abbrev FsPath := List String

/-- Split a character stream into path components at `/` separators. -/
def splitPathAux : List Char → List Char → List String
| [], acc => [acc.reverse.asString]
| c :: cs, acc =>
  if c = '/' then acc.reverse.asString :: splitPathAux cs []
  else splitPathAux cs (c :: acc)

/-- Split a path string into components, as `Path::new` views it. -/
def parsePath (s : String) : FsPath := splitPathAux s.toList []

/-- The filesystem: existing directories and files with contents. -/
structure FS where
  dirs : List FsPath
  files : List (FsPath × String)
deriving DecidableEq

/-- Content of the file at `p`, if one exists. -/
def lookupFile : List (FsPath × String) → FsPath → Option String
| [], _ => none
| (q, c) :: rest, p => if q = p then some c else lookupFile rest p

/-- Create or overwrite the file at `p` with content `c`. -/
def setFile : List (FsPath × String) → FsPath → String → List (FsPath × String)
| [], p, c => [(p, c)]
| (q, d) :: rest, p, c => if q = p then (p, c) :: rest else (q, d) :: setFile rest p c

/-- Does a file exist at `p`? -/
def FS.isFile (fs : FS) (p : FsPath) : Bool := (lookupFile fs.files p).isSome

/-- All nonempty leading component runs of a path: the chain of directories
`fs::create_dir_all` must make exist. -/
def nonemptyAncestors : FsPath → List FsPath
| [] => []
| x :: xs => [x] :: (nonemptyAncestors xs).map (fun q => x :: q)

/-- Add a directory if it is not already present. -/
def insertDir (ds : List FsPath) (d : FsPath) : List FsPath :=
  if d ∈ ds then ds else ds ++ [d]

/-- `fs::create_dir_all`: create the whole directory chain; fails when some
component of the chain already exists as a file. -/
def create_dir_all (fs : FS) (dir : FsPath) : Except String FS :=
  if (nonemptyAncestors dir).any (fun q => fs.isFile q) then
    Except.error "Failed to create output directory"
  else
    Except.ok { fs with dirs := (nonemptyAncestors dir).foldl insertDir fs.dirs }

/-! ## The generator runtime (translated from `sdk/src/runtime.rs`) -/

/-- `GeneratorMetadata` from the source: the injected emission function, the
display name and the default output path.  The emission function's
`Except.error` case models a Rust panic inside the plugin. -/
structure GeneratorMetadata where
  generate_fn : GenerateArgs → JsonFields → Except String String
  name : String
  default_output : String

/-- The external capabilities the runtime calls into, plus the process
environment.  `Except.error` models a panic inside the capability; `writeOk`
injects the success or failure of each `file.write` call (as a function of
the bytes written). -/
structure Env where
  envVar : Option String
  parse_schema : String → Except String (Configuration × Datamodel)
  build_schema : Datamodel → Configuration → Schema
  validate_names : GenerateArgs → Except String Unit
  writeOk : String → Bool

/-- `create_generated_file` from the source: create the parent directory
chain recursively, then open (create or truncate) the output file.  Returns
the filesystem as updated so far and a panic message on failure. -/
def create_generated_file (fs : FS) (p : FsPath) : FS × Option String :=
  match create_dir_all fs p.dropLast with
  | .error msg => (fs, some msg)
  | .ok fs1 =>
    if p ∈ fs1.dirs then (fs1, some "Failed to open output file")
    else ({ fs1 with files := setFile fs1.files p "" }, none)

/-- One `file.write` call: on success the bytes are appended to the open
file's content; `env.writeOk` injects I/O failure. -/
def fileWrite (env : Env) (fs : FS) (p : FsPath) (bytes : String) : FS × Bool :=
  if env.writeOk bytes then
    match lookupFile fs.files p with
    | some c => ({ fs with files := setFile fs.files p (c ++ bytes) }, true)
    | none => (fs, false)
  else (fs, false)

/-- The fixed file header: one comment line naming the generator, then a
blank line. -/
def header (name : String) : String :=
  "// Code generated by " ++ name ++ ". DO NOT EDIT\n\n"

/-- `generate` from the source: compile the datamodel, build the schema,
open the output file (creating directories), assemble `GenerateArgs`,
validate names, run the emission function, write the header and the
generated text.  The trailing `rustfmt` call is an external best-effort
side effect with no modelled filesystem footprint.  Returns the filesystem
as updated so far and a panic message on failure. -/
def generate (g : GeneratorMetadata) (env : Env) (dmmf : EngineDMMF) (fs : FS) :
    FS × Option String :=
  match env.parse_schema dmmf.datamodel with
  | .error _ => (fs, some "Failed to parse datamodel")
  | .ok (configuration, datamodel) =>
    let schema := env.build_schema datamodel configuration
    let output_path := parsePath dmmf.generator.output
    match create_generated_file fs output_path with
    | (fs1, some msg) => (fs1, some msg)
    | (fs1, none) =>
      let args : GenerateArgs := ⟨datamodel, schema, dmmf.datamodel, dmmf.datasources⟩
      match env.validate_names args with
      | .error msg => (fs1, some msg)
      | .ok _ =>
        match g.generate_fn args dmmf.generator.config with
        | .error msg => (fs1, some msg)
        | .ok generated_str =>
          match fileWrite env fs1 output_path (header g.name) with
          | (fs2, false) => (fs2, some "Failed to write file header")
          | (fs2, true) =>
            match fileWrite env fs2 output_path generated_str with
            | (fs3, false) => (fs3, some "Failed to write generated code")
            | (fs3, true) => (fs3, none)

/-- Modelled from the spec: the `getManifest` result payload — the
statically configured identity values, other descriptive fields left at
their (omitted) defaults, serialized with `defaultOutput` first. -/
def manifestJson (g : GeneratorMetadata) : Json :=
  .obj (.cons "defaultOutput" (.str g.default_output)
       (.cons "prettyName" (.str g.name) .nil))

/-- Modelled from the spec: the `jsonrpc::Response` envelope with the
constant protocol version, the echoed id and the result. -/
def responseJson (id : RpcId) (result : Json) : Json :=
  .obj (.cons "jsonrpc" (.str "2.0")
       (.cons "id" (idToJson id)
       (.cons "result" result .nil)))

/-- The exact bytes the loop writes to stderr for one reply: the serialized
response followed by the pushed newline byte. -/
def responseBytes (id : RpcId) (result : Json) : List Char :=
  renderJson (responseJson id result) ++ ['\n']

/-- The panic message of the `unwrap` on a line that does not decode into a
request. -/
def decodePanicMsg : String := "called Result unwrap on an Err value"

/-- The panic message of the `expect` on a `generate` params payload that
does not decode into an EngineManifest. -/
def dmmfPanicMsg : String := "Failed to deserialize DMMF from Prisma engines"

/-- The computation of `value` in the loop body: the `match input.method`
dispatch from the source.  Returns the filesystem after any `generate` side
effects and either the reply's result value or a panic message. -/
def handle (g : GeneratorMetadata) (env : Env) (req : Request) (fs : FS) :
    FS × Except String Json :=
  if req.method = "getManifest" then
    (fs, .ok (manifestJson g))
  else if req.method = "generate" then
    match decodeEngineManifest req.params with
    | none => (fs, .error dmmfPanicMsg)
    | some dmmf =>
      match generate g env dmmf fs with
      | (fs1, some msg) => (fs1, .error msg)
      | (fs1, none) => (fs1, .ok Json.null)
  else (fs, .error ("Unknown generator method " ++ req.method))

/-- Observable process actions: a blocking line read from stdin, a reply
line written to stderr (tagged with the method answered), a message printed
to stdout, and the hand-off to the CLI surface. -/
inductive Event where
| readLine : Event
| reply : String → List Char → Event
| printlnStdout : String → Event
| cliMain : List String → Event
deriving DecidableEq

/-- How a run of the runtime ends: the function returns, the process exits
with a code, or it panics. -/
inductive Outcome where
| returned : Outcome
| exited : Nat → Outcome
| panicked : String → Outcome
deriving DecidableEq

/-- The `loop` in `run_generator`: read a line, decode it, dispatch, write
the reply to stderr, and `break` exactly when the method was `generate`.
The input is the sequence of lines stdin will produce; an exhausted input
reads an empty line, which fails to decode (the `unwrap` panics). -/
def session_loop (g : GeneratorMetadata) (env : Env) :
    List String → FS → List Event × FS × Outcome
| [], fs => ([Event.readLine], fs, Outcome.panicked decodePanicMsg)
| line :: rest, fs =>
  match decodeRequest line with
  | none => ([Event.readLine], fs, Outcome.panicked decodePanicMsg)
  | some req =>
    match handle g env req fs with
    | (fs1, .error msg) => ([Event.readLine], fs1, Outcome.panicked msg)
    | (fs1, .ok value) =>
      if req.method = "generate" then
        ([Event.readLine, Event.reply req.method (responseBytes req.id value)],
         fs1, Outcome.returned)
      else
        (Event.readLine :: Event.reply req.method (responseBytes req.id value) ::
           (session_loop g env rest fs1).1,
         (session_loop g env rest fs1).2)

/-- The instructional message printed when the invocation marker is absent. -/
def instructionalMsg : String :=
  "This command is only meant to be invoked internally. Please specify a command to run."

/-- `run_generator` from the source: non-empty argument list hands off to the
CLI surface; with no arguments the `PRISMA_GENERATOR_INVOCATION` marker must
be present, else the process prints an instructional message and exits with
code 1; otherwise the session loop runs. -/
def run_generator (g : GeneratorMetadata) (env : Env) (args : List String)
    (lines : List String) (fs : FS) : List Event × FS × Outcome :=
  if args.length > 0 then ([Event.cliMain args], fs, Outcome.returned)
  else
    match env.envVar with
    | none => ([Event.printlnStdout instructionalMsg], fs, Outcome.exited 1)
    | some _ => session_loop g env lines fs

/-- The reply lines a trace writes to the error stream. -/
def stderrLines (evs : List Event) : List (List Char) :=
  evs.filterMap fun e => match e with | .reply _ b => some b | _ => none

/-- The messages a trace prints to the output stream. -/
def stdoutMsgs (evs : List Event) : List String :=
  evs.filterMap fun e => match e with | .printlnStdout m => some m | _ => none

/-- Is this event the reply to a `generate` request? -/
def isGenerateReply : Event → Bool
| .reply m _ => m = "generate"
| _ => false

/-- The requests the loop answers, in processing order, each paired with the
result value computed for it: one entry per emitted reply.  The loop stops
answering at the first line that fails to decode, at the first dispatch that
panics, and right after a `generate` request. -/
def answeredRequests (g : GeneratorMetadata) (env : Env) :
    List String → FS → List (Request × Json)
| [], _ => []
| line :: rest, fs =>
  match decodeRequest line with
  | none => []
  | some req =>
    match handle g env req fs with
    | (_, .error _) => []
    | (fs1, .ok v) =>
      if req.method = "generate" then [(req, v)]
      else (req, v) :: answeredRequests g env rest fs1

/-! ## Example generator, capabilities and inputs used in witnesses -/

/-- The demo generator identity from the spec's example scenario. -/
def demoGen : GeneratorMetadata :=
  { generate_fn := fun _ _ => .ok "export const x = 1;"
    name := "demo"
    default_output := "./gen/demo.ts" }

/-- A fully cooperative environment: marker present, every capability
succeeds, every write succeeds. -/
def okEnv : Env :=
  { envVar := some "1"
    parse_schema := fun s => .ok (⟨s⟩, ⟨s⟩)
    build_schema := fun d c => ⟨d.val ++ c.val⟩
    validate_names := fun _ => .ok ()
    writeOk := fun _ => true }

/-- The empty filesystem. -/
def fs0 : FS := ⟨[], []⟩

/-- The spec's example `getManifest` input line. -/
def exManifestLine : String :=
  "\x7b\"method\":\"getManifest\",\"id\":1,\"params\":null\x7d"

/-- The spec's example reply, as the exact stderr line (with the trailing
newline the loop appends). -/
def exManifestReply : String :=
  "\x7b\"jsonrpc\":\"2.0\",\"id\":1,\"result\":\x7b\"defaultOutput\":\"./gen/demo.ts\",\"prettyName\":\"demo\"\x7d\x7d\n"

/-- A successfully generated request's concrete input payload used in
witnesses: datamodel text, generator output path, empty config, no
datasources. -/
def exGenerateLine : String :=
  "\x7b\"method\":\"generate\",\"id\":7,\"params\":\x7b\"datamodel\":\"model\",\"generator\":\x7b\"output\":\"./gen/demo.ts\",\"config\":\x7b\x7d\x7d,\"datasources\":[]\x7d\x7d"

/-- The params payload of `exGenerateLine`, as a JSON value. -/
def exGenParams : Json :=
  .obj (.cons "datamodel" (.str "model")
       (.cons "generator"
         (.obj (.cons "output" (.str "./gen/demo.ts")
               (.cons "config" (.obj .nil) .nil)))
       (.cons "datasources" (.arr .nil) .nil)))

/-- The filesystem after the demo generator has successfully generated into
an empty filesystem. -/
def exFsAfterGen : FS :=
  ⟨[["."], [".", "gen"]],
   [([".", "gen", "demo.ts"],
     "// Code generated by demo. DO NOT EDIT\n\nexport const x = 1;")]⟩

/-- The EngineManifest payload used by concrete pipeline witnesses. -/
def exDmmf : EngineDMMF := ⟨"model", ⟨"./gen/demo.ts", .nil⟩, .nil⟩

/-- An environment whose file writes succeed only for the demo header: the
second write (the generated code) fails. -/
def cexEnv : Env :=
  { envVar := some "1"
    parse_schema := fun s => .ok (⟨s⟩, ⟨s⟩)
    build_schema := fun d c => ⟨d.val ++ c.val⟩
    validate_names := fun _ => .ok ()
    writeOk := fun b => b == header "demo" }

/-- An environment whose schema compiler rejects every datamodel. -/
def parseFailEnv : Env := { okEnv with parse_schema := fun _ => .error "P1012" }

/-- An environment whose name validation fails. -/
def valFailEnv : Env := { okEnv with validate_names := fun _ => .error "name collision" }

/-- A generator whose injected emission function panics. -/
def emitFailGen : GeneratorMetadata :=
  { generate_fn := fun _ _ => .error "emission panicked"
    name := "demo"
    default_output := "./gen/demo.ts" }

/-- The filesystem right after `create_generated_file` has run on the empty
filesystem for the demo output path: directories created, file truncated. -/
def exFsCreated : FS := ⟨[["."], [".", "gen"]], [([".", "gen", "demo.ts"], "")]⟩

/-! ## Rendered replies never contain an interior newline -/

theorem nl_notmem_append {A B : List Char} (ha : '\n' ∉ A) (hb : '\n' ∉ B) :
    '\n' ∉ A ++ B := by
  intro h
  rcases List.mem_append.mp h with h | h
  · exact ha h
  · exact hb h

theorem nl_notmem_cons {c : Char} {B : List Char} (hc : c ≠ '\n') (hb : '\n' ∉ B) :
    '\n' ∉ c :: B := by
  intro h
  rcases List.mem_cons.mp h with h | h
  · exact hc h.symm
  · exact hb h

theorem escapeChar_ne_nl (c : Char) : '\n' ∉ escapeChar c := by
  unfold escapeChar
  split_ifs with h1 h2 h3 h4 h5
  · decide
  · decide
  · decide
  · decide
  · decide
  · intro hmem
    simp only [List.mem_singleton] at hmem
    exact h3 hmem.symm

theorem escapeChars_ne_nl : ∀ cs : List Char, '\n' ∉ escapeChars cs
| [] => by simp [escapeChars]
| c :: cs => by
  simp only [escapeChars]
  exact nl_notmem_append (escapeChar_ne_nl c) (escapeChars_ne_nl cs)

theorem renderString_ne_nl (s : String) : '\n' ∉ renderString s := by
  simp only [renderString]
  exact nl_notmem_append (nl_notmem_cons (by decide) (escapeChars_ne_nl _)) (by decide)

theorem digitChar_ne_nl (n : Nat) : digitChar n ≠ '\n' := by
  unfold digitChar
  have h : n % 10 < 10 := Nat.mod_lt _ (by norm_num)
  set r := n % 10 with hr
  interval_cases r <;> decide

theorem natDigitsAux_ne_nl : ∀ f n, '\n' ∉ natDigitsAux f n
| 0, n => by simp [natDigitsAux]
| f + 1, n => by
  simp only [natDigitsAux]
  split
  · exact nl_notmem_cons (digitChar_ne_nl n) (List.not_mem_nil _)
  · exact nl_notmem_append (natDigitsAux_ne_nl f (n / 10))
      (nl_notmem_cons (digitChar_ne_nl n) (List.not_mem_nil _))

theorem renderInt_ne_nl (n : Int) : '\n' ∉ renderInt n := by
  unfold renderInt natDigits
  split
  · exact nl_notmem_cons (by decide) (natDigitsAux_ne_nl _ _)
  · exact natDigitsAux_ne_nl _ _

mutual

theorem renderJson_ne_nl : ∀ j : Json, '\n' ∉ renderJson j
| .null => by simp only [renderJson]; decide
| .bool b => by cases b <;> (simp only [renderJson]; decide)
| .num n => by simp only [renderJson]; exact renderInt_ne_nl n
| .str s => by simp only [renderJson]; exact renderString_ne_nl s
| .arr xs => by
  simp only [renderJson]
  exact nl_notmem_append
    (nl_notmem_cons (by decide) (renderArrItems_ne_nl xs)) (by decide)
| .obj fs => by
  simp only [renderJson]
  exact nl_notmem_append
    (nl_notmem_cons (by decide) (renderFieldItems_ne_nl fs)) (by decide)

theorem renderArrItems_ne_nl : ∀ xs : JsonList, '\n' ∉ renderArrItems xs
| .nil => by simp [renderArrItems]
| .cons x .nil => by simp only [renderArrItems]; exact renderJson_ne_nl x
| .cons x (.cons y rest) => by
  simp only [renderArrItems]
  exact nl_notmem_append (renderJson_ne_nl x)
    (nl_notmem_cons (by decide) (renderArrItems_ne_nl (.cons y rest)))

theorem renderFieldItems_ne_nl : ∀ fs : JsonFields, '\n' ∉ renderFieldItems fs
| .nil => by simp [renderFieldItems]
| .cons k v .nil => by
  simp only [renderFieldItems]
  exact nl_notmem_append (renderString_ne_nl k)
    (nl_notmem_cons (by decide) (renderJson_ne_nl v))
| .cons k v (.cons k2 v2 rest) => by
  simp only [renderFieldItems]
  exact nl_notmem_append
    (nl_notmem_append (renderString_ne_nl k)
      (nl_notmem_cons (by decide) (renderJson_ne_nl v)))
    (nl_notmem_cons (by decide) (renderFieldItems_ne_nl (.cons k2 v2 rest)))

end

/-! ## Claim theorems -/

/-- Claim C1: for every received request whose method is `getManifest`, the
loop replies with a response whose id equals the request's id and whose
result carries `prettyName` = display name and `defaultOutput` = default
output path, independent of the request id (the reply depends on the request
only through its echoed id); and on the concrete example identity and input
line, the exact example reply line is written. -/
theorem runtime_getManifest_reply :
    (∀ (g : GeneratorMetadata) (env : Env) (fs : FS) (line : String)
       (rest : List String) (req : Request),
      decodeRequest line = some req → req.method = "getManifest" →
      (session_loop g env (line :: rest) fs).1 =
        Event.readLine ::
          Event.reply "getManifest" (responseBytes req.id (manifestJson g)) ::
          (session_loop g env rest fs).1) ∧
    stderrLines (session_loop demoGen okEnv [exManifestLine] fs0).1 =
      [exManifestReply.toList] := by
  constructor
  · intro g env fs line rest req hd hm
    have hh : handle g env req fs = (fs, Except.ok (manifestJson g)) := by
      simp [handle, hm]
    simp [session_loop, hd, hh, hm]
  · decide

/-- Witness for C1 at the example identity and input line. -/
theorem runtime_getManifest_reply_witness :
    (session_loop demoGen okEnv [exManifestLine] fs0).1 =
      Event.readLine ::
        Event.reply "getManifest"
          (responseBytes (RpcId.num 1) (manifestJson demoGen)) ::
        (session_loop demoGen okEnv [] fs0).1 :=
  runtime_getManifest_reply.1 demoGen okEnv fs0 exManifestLine []
    ⟨"getManifest", RpcId.num 1, Json.null⟩ (by decide) rfl

/-- Claim C5: a request whose method is neither `getManifest` nor `generate`
makes the process panic at the dispatch point: the trace holds only the read,
no reply line is written to the error stream, and the run ends panicked. -/
theorem runtime_unknown_method_panics (g : GeneratorMetadata) (env : Env)
    (line : String) (req : Request) (rest : List String) (fs : FS)
    (hd : decodeRequest line = some req)
    (h1 : req.method ≠ "getManifest") (h2 : req.method ≠ "generate") :
    session_loop g env (line :: rest) fs =
      ([Event.readLine], fs,
        Outcome.panicked ("Unknown generator method " ++ req.method)) ∧
    stderrLines (session_loop g env (line :: rest) fs).1 = [] := by
  have hh : handle g env req fs =
      (fs, Except.error ("Unknown generator method " ++ req.method)) := by
    simp [handle, h1, h2]
  constructor
  · simp [session_loop, hd, hh]
  · simp [session_loop, hd, hh, stderrLines]

/-- Witness for C5 at a concrete unknown method. -/
theorem runtime_unknown_method_panics_witness :
    session_loop demoGen okEnv
        ["\x7b\"method\":\"shutdown\",\"id\":2,\"params\":null\x7d"] fs0 =
      ([Event.readLine], fs0,
        Outcome.panicked ("Unknown generator method " ++ "shutdown")) ∧
    stderrLines (session_loop demoGen okEnv
        ["\x7b\"method\":\"shutdown\",\"id\":2,\"params\":null\x7d"] fs0).1 = [] :=
  runtime_unknown_method_panics demoGen okEnv _
    ⟨"shutdown", RpcId.num 2, Json.null⟩ [] fs0 (by decide) (by decide) (by decide)

/-- Claim C8: with a non-empty argument list `run_generator` hands off to the
CLI surface and returns without entering the request loop; with no arguments
and the environment marker absent it prints the instructional message on
stdout and exits with code 1; with no arguments and the marker present it
enters the session loop. -/
theorem runtime_invocation_selector (g : GeneratorMetadata) (env : Env)
    (args lines : List String) (fs : FS) :
    (args ≠ [] →
      run_generator g env args lines fs = ([Event.cliMain args], fs, Outcome.returned)) ∧
    (args = [] → env.envVar = none →
      run_generator g env args lines fs =
        ([Event.printlnStdout instructionalMsg], fs, Outcome.exited 1)) ∧
    (∀ s, args = [] → env.envVar = some s →
      run_generator g env args lines fs = session_loop g env lines fs) := by
  refine ⟨?_, ?_, ?_⟩
  · intro h
    have : 0 < args.length := List.length_pos.mpr h
    simp [run_generator, this]
  · intro h he
    subst h
    simp [run_generator, he]
  · intro s h he
    subst h
    simp [run_generator, he]

/-- Witness for C8: all three invocation modes at concrete inputs. -/
theorem runtime_invocation_selector_witness :
    run_generator demoGen okEnv ["version"] [] fs0 =
      ([Event.cliMain ["version"]], fs0, Outcome.returned) ∧
    run_generator demoGen
        { okEnv with envVar := none } [] [] fs0 =
      ([Event.printlnStdout instructionalMsg], fs0, Outcome.exited 1) ∧
    run_generator demoGen okEnv [] [exManifestLine] fs0 =
      session_loop demoGen okEnv [exManifestLine] fs0 :=
  ⟨(runtime_invocation_selector demoGen okEnv ["version"] [] fs0).1 (by decide),
   (runtime_invocation_selector demoGen { okEnv with envVar := none } [] [] fs0).2.1 rfl rfl,
   (runtime_invocation_selector demoGen okEnv [] [exManifestLine] fs0).2.2 "1" rfl rfl⟩

/-- Claim C10: the `getManifest` result payload depends only on the
configured generator identity, never on the request's params: any two
`getManifest` dispatches produce the same result value (the static manifest),
and two input lines decoding to `getManifest` requests with the same id but
arbitrary different params produce identical session behaviour. -/
theorem runtime_manifest_independent_of_params
    (g : GeneratorMetadata) (env : Env) (fs : FS) (rest : List String)
    (line1 line2 : String) (req1 req2 : Request)
    (hd1 : decodeRequest line1 = some req1) (hd2 : decodeRequest line2 = some req2)
    (hm1 : req1.method = "getManifest") (hm2 : req2.method = "getManifest") :
    ((handle g env req1 fs).2 = Except.ok (manifestJson g) ∧
     (handle g env req2 fs).2 = Except.ok (manifestJson g)) ∧
    (req1.id = req2.id →
      session_loop g env (line1 :: rest) fs = session_loop g env (line2 :: rest) fs) := by
  have hh1 : handle g env req1 fs = (fs, Except.ok (manifestJson g)) := by
    simp [handle, hm1]
  have hh2 : handle g env req2 fs = (fs, Except.ok (manifestJson g)) := by
    simp [handle, hm2]
  refine ⟨⟨by simp [hh1], by simp [hh2]⟩, ?_⟩
  intro hid
  simp [session_loop, hd1, hd2, hh1, hh2, hm1, hm2, hid]

/-- Witness for C10: the example line and a variant with object params and a
different key order give identical traces. -/
theorem runtime_manifest_independent_of_params_witness :
    ((handle demoGen okEnv ⟨"getManifest", RpcId.num 1, Json.null⟩ fs0).2 =
        Except.ok (manifestJson demoGen) ∧
     (handle demoGen okEnv
        ⟨"getManifest", RpcId.num 1,
          Json.obj (.cons "x" (Json.num 7) .nil)⟩ fs0).2 =
        Except.ok (manifestJson demoGen)) ∧
    session_loop demoGen okEnv [exManifestLine] fs0 =
      session_loop demoGen okEnv
        ["\x7b\"id\":1,\"method\":\"getManifest\",\"params\":\x7b\"x\":7\x7d\x7d"] fs0 := by
  have h := runtime_manifest_independent_of_params demoGen okEnv fs0 []
    exManifestLine "\x7b\"id\":1,\"method\":\"getManifest\",\"params\":\x7b\"x\":7\x7d\x7d"
    ⟨"getManifest", RpcId.num 1, Json.null⟩
    ⟨"getManifest", RpcId.num 1, Json.obj (.cons "x" (Json.num 7) .nil)⟩
    (by decide) (by decide) rfl rfl
  exact ⟨h.1, h.2 rfl⟩

/-! ## Session-loop structure lemmas -/

/-- Every iteration of the loop begins with a blocking read. -/
theorem session_loop_starts_with_read (g : GeneratorMetadata) (env : Env) :
    ∀ (lines : List String) (fs : FS),
      ∃ t, (session_loop g env lines fs).1 = Event.readLine :: t := by
  intro lines fs
  cases lines with
  | nil => exact ⟨_, rfl⟩
  | cons line rest =>
    cases hd : decodeRequest line with
    | none => simp [session_loop, hd]
    | some req =>
      cases hh : handle g env req fs with
      | mk fs1 res =>
        cases res with
        | error msg => simp [session_loop, hd, hh]
        | ok value =>
          by_cases hm : req.method = "generate"
          · simp [session_loop, hd, hh, hm]
          · simp [session_loop, hd, hh, hm]

/-- A `generate` reply is always the final event of a loop trace: nothing —
in particular no read — happens after it. -/
theorem session_loop_generate_reply_last (g : GeneratorMetadata) (env : Env) :
    ∀ (lines : List String) (fs : FS) (pre : List Event) (b : List Char)
      (suf : List Event),
      (session_loop g env lines fs).1 = pre ++ Event.reply "generate" b :: suf →
      suf = [] := by
  intro lines
  induction lines with
  | nil =>
    intro fs pre b suf h
    simp only [session_loop] at h
    rcases pre with _ | ⟨p, ps⟩ <;> simp_all
  | cons line rest ih =>
    intro fs pre b suf h
    simp only [session_loop] at h
    cases hd : decodeRequest line with
    | none =>
      simp only [hd] at h
      rcases pre with _ | ⟨p, ps⟩ <;> simp_all
    | some req =>
      simp only [hd] at h
      cases hh : handle g env req fs with
      | mk fs1 res =>
        simp only [hh] at h
        cases res with
        | error msg =>
          simp only at h
          rcases pre with _ | ⟨p, ps⟩ <;> simp_all
        | ok value =>
          simp only at h
          by_cases hm : req.method = "generate"
          · rw [if_pos hm] at h
            rcases pre with _ | ⟨p, _ | ⟨q, qs⟩⟩ <;> simp_all
          · rw [if_neg hm] at h
            rcases pre with _ | ⟨p, _ | ⟨q, qs⟩⟩
            · simp_all
            · simp_all
            · injection h with h1 h
              injection h with h2 h
              exact ih fs1 qs b suf h

/-- A loop trace contains at most one `generate` reply. -/
theorem session_loop_at_most_one_generate (g : GeneratorMetadata) (env : Env) :
    ∀ (lines : List String) (fs : FS),
      (session_loop g env lines fs).1.countP (fun e => isGenerateReply e) ≤ 1 := by
  intro lines
  induction lines with
  | nil => intro fs; simp [session_loop, isGenerateReply]
  | cons line rest ih =>
    intro fs
    cases hd : decodeRequest line with
    | none => simp [session_loop, hd, isGenerateReply]
    | some req =>
      cases hh : handle g env req fs with
      | mk fs1 res =>
        cases res with
        | error msg => simp [session_loop, hd, hh, isGenerateReply]
        | ok value =>
          by_cases hm : req.method = "generate"
          · simp [session_loop, hd, hh, hm, isGenerateReply]
          · have hih := ih fs1
            simp [session_loop, hd, hh, hm, isGenerateReply, List.countP_cons]
            exact hih


/-- Claim C2: the loop, after replying to `getManifest`, returns to reading
the next input line; after replying to `generate` it terminates: the run
ends right after the reply independently of any further input, a `generate`
reply is always the final trace event (so no read from standard input occurs
after it), and every trace holds at most one `generate` reply. -/
theorem runtime_single_generation_cycle :
    (∀ (g : GeneratorMetadata) (env : Env) (line : String) (req : Request)
       (rest : List String) (fs fs1 : FS) (v : Json),
      decodeRequest line = some req → req.method = "generate" →
      handle g env req fs = (fs1, Except.ok v) →
      session_loop g env (line :: rest) fs =
        ([Event.readLine, Event.reply "generate" (responseBytes req.id v)],
         fs1, Outcome.returned)) ∧
    (∀ (g : GeneratorMetadata) (env : Env) (lines : List String) (fs : FS)
       (pre : List Event) (b : List Char) (suf : List Event),
      (session_loop g env lines fs).1 = pre ++ Event.reply "generate" b :: suf →
      suf = []) ∧
    (∀ (g : GeneratorMetadata) (env : Env) (lines : List String) (fs : FS),
      (session_loop g env lines fs).1.countP (fun e => isGenerateReply e) ≤ 1) ∧
    (∀ (g : GeneratorMetadata) (env : Env) (line : String) (req : Request)
       (rest : List String) (fs : FS),
      decodeRequest line = some req → req.method = "getManifest" →
      session_loop g env (line :: rest) fs =
        (Event.readLine ::
           Event.reply "getManifest" (responseBytes req.id (manifestJson g)) ::
           (session_loop g env rest fs).1,
         (session_loop g env rest fs).2)) := by
  refine ⟨?_, ?_, ?_, ?_⟩
  · intro g env line req rest fs fs1 v hd hm hh
    simp [session_loop, hd, hh, hm]
  · intro g env lines fs pre b suf h
    exact session_loop_generate_reply_last g env lines fs pre b suf h
  · intro g env lines fs
    exact session_loop_at_most_one_generate g env lines fs
  · intro g env line req rest fs hd hm
    have hh : handle g env req fs = (fs, Except.ok (manifestJson g)) := by
      simp [handle, hm]
    simp [session_loop, hd, hh, hm]

set_option maxRecDepth 8000 in
/-- Witness for C2: a concrete successful `generate` request followed by a
further input line terminates the loop right after the reply; the extra line
is never read. -/
theorem runtime_single_generation_cycle_witness :
    session_loop demoGen okEnv [exGenerateLine, exManifestLine] fs0 =
      ([Event.readLine,
        Event.reply "generate" (responseBytes (RpcId.num 7) Json.null)],
       exFsAfterGen, Outcome.returned) :=
  runtime_single_generation_cycle.1 demoGen okEnv exGenerateLine
    ⟨"generate", RpcId.num 7, exGenParams⟩ [exManifestLine] fs0 exFsAfterGen
    Json.null (by decide) rfl rfl

/-- Claim C6: a `generate` request whose params payload does not decode into
an EngineManifest — in particular one whose `generator` object is missing the
required `output` field — panics during deserialization: the filesystem is
returned untouched, so no file (partial or otherwise) is created at any
path; concretely, a params payload missing `generator.output` fails to
decode. -/
theorem runtime_generate_decode_failure_creates_nothing :
    (∀ (g : GeneratorMetadata) (env : Env) (line : String) (req : Request)
       (rest : List String) (fs : FS),
      decodeRequest line = some req → req.method = "generate" →
      decodeEngineManifest req.params = none →
      session_loop g env (line :: rest) fs =
        ([Event.readLine], fs, Outcome.panicked dmmfPanicMsg) ∧
      ∀ p, lookupFile (session_loop g env (line :: rest) fs).2.1.files p =
        lookupFile fs.files p) ∧
    decodeEngineManifest
      (.obj (.cons "datamodel" (.str "model")
           (.cons "generator" (.obj (.cons "config" (.obj .nil) .nil))
           (.cons "datasources" (.arr .nil) .nil)))) = none := by
  constructor
  · intro g env line req rest fs hd hm hdm
    have hh : handle g env req fs = (fs, Except.error dmmfPanicMsg) := by
      simp [handle, hm, hdm]
    have hloop : session_loop g env (line :: rest) fs =
        ([Event.readLine], fs, Outcome.panicked dmmfPanicMsg) := by
      simp [session_loop, hd, hh]
    exact ⟨hloop, fun p => by rw [hloop]⟩
  · decide

/-- Witness for C6 at a concrete `generate` line missing `generator.output`. -/
theorem runtime_generate_decode_failure_creates_nothing_witness :
    session_loop demoGen okEnv
        ["\x7b\"method\":\"generate\",\"id\":3,\"params\":\x7b\"datamodel\":\"model\",\"generator\":\x7b\"config\":\x7b\x7d\x7d,\"datasources\":[]\x7d\x7d"]
        fs0 =
      ([Event.readLine], fs0, Outcome.panicked dmmfPanicMsg) :=
  (runtime_generate_decode_failure_creates_nothing.1 demoGen okEnv _
    ⟨"generate", RpcId.num 3,
      .obj (.cons "datamodel" (.str "model")
           (.cons "generator" (.obj (.cons "config" (.obj .nil) .nil))
           (.cons "datasources" (.arr .nil) .nil)))⟩
    [] fs0 (by decide) rfl (by decide)).1

/-- The loop's stderr output is, line by line, the serialized response for
each answered request in processing order. -/
theorem stderrLines_eq_answeredRequests (g : GeneratorMetadata) (env : Env) :
    ∀ (lines : List String) (fs : FS),
      stderrLines (session_loop g env lines fs).1 =
        (answeredRequests g env lines fs).map
          (fun rv => responseBytes rv.1.id rv.2) := by
  intro lines
  induction lines with
  | nil => intro fs; simp [session_loop, answeredRequests, stderrLines]
  | cons line rest ih =>
    intro fs
    cases hd : decodeRequest line with
    | none => simp [session_loop, answeredRequests, hd, stderrLines]
    | some req =>
      cases hh : handle g env req fs with
      | mk fs1 res =>
        cases res with
        | error msg => simp [session_loop, answeredRequests, hd, hh, stderrLines]
        | ok value =>
          by_cases hm : req.method = "generate"
          · simp [session_loop, answeredRequests, hd, hh, hm, stderrLines]
          · simp only [session_loop, answeredRequests, hd, hh, if_neg hm, List.map_cons]
            simpa [stderrLines] using ih fs1

/-- The k-th answered request is the decode of the k-th input line. -/
theorem answeredRequests_decode_lines (g : GeneratorMetadata) (env : Env) :
    ∀ (lines : List String) (fs : FS) (k : Nat) (rv : Request × Json),
      (answeredRequests g env lines fs).get? k = some rv →
      ∃ line, lines.get? k = some line ∧ decodeRequest line = some rv.1 := by
  intro lines
  induction lines with
  | nil => intro fs k rv h; simp [answeredRequests] at h
  | cons line rest ih =>
    intro fs k rv h
    cases hd : decodeRequest line with
    | none => simp [answeredRequests, hd] at h
    | some req =>
      simp only [answeredRequests, hd] at h
      cases hh : handle g env req fs with
      | mk fs1 res =>
        rw [hh] at h
        cases res with
        | error msg => simp at h
        | ok value =>
          simp only at h
          by_cases hm : req.method = "generate"
          · rw [if_pos hm] at h
            cases k with
            | zero =>
              simp only [List.get?] at h
              injection h with h
              exact ⟨line, rfl, by rw [hd, ← h]⟩
            | succ k => simp [List.get?] at h
          · rw [if_neg hm] at h
            cases k with
            | zero =>
              simp only [List.get?] at h
              injection h with h
              exact ⟨line, rfl, by rw [hd, ← h]⟩
            | succ k =>
              simp only [List.get?] at h
              obtain ⟨l2, hg, hdec⟩ := ih fs1 k rv h
              exact ⟨l2, hg, hdec⟩

/-- The loop never prints to the output stream. -/
theorem stdoutMsgs_session_loop (g : GeneratorMetadata) (env : Env) :
    ∀ (lines : List String) (fs : FS),
      stdoutMsgs (session_loop g env lines fs).1 = [] := by
  intro lines
  induction lines with
  | nil => intro fs; simp [session_loop, stdoutMsgs]
  | cons line rest ih =>
    intro fs
    cases hd : decodeRequest line with
    | none => simp [session_loop, hd, stdoutMsgs]
    | some req =>
      cases hh : handle g env req fs with
      | mk fs1 res =>
        cases res with
        | error msg => simp [session_loop, hd, hh, stdoutMsgs]
        | ok value =>
          by_cases hm : req.method = "generate"
          · simp [session_loop, hd, hh, hm, stdoutMsgs]
          · simp only [session_loop, hd, hh, if_neg hm]
            simpa [stdoutMsgs] using ih fs1

/-- Claim C7: every reply the loop emits is a single newline-terminated JSON
line written to the error stream, never the output stream, whose `jsonrpc`
field is the constant "2.0" and whose id mirrors the id of the request being
answered: the k-th stderr line is exactly the serialized response envelope
for the k-th answered request — which decodes from the k-th input line —
carrying that request's id, followed by one newline with no interior
newline, and the loop prints nothing to stdout. -/
theorem runtime_replies_single_stderr_lines (g : GeneratorMetadata) (env : Env)
    (lines : List String) (fs : FS) :
    stderrLines (session_loop g env lines fs).1 =
      (answeredRequests g env lines fs).map
        (fun rv => responseBytes rv.1.id rv.2) ∧
    (∀ (k : Nat) (rv : Request × Json),
      (answeredRequests g env lines fs).get? k = some rv →
      ∃ line, lines.get? k = some line ∧ decodeRequest line = some rv.1) ∧
    (∀ (i : RpcId) (v : Json),
      responseBytes i v = renderJson (responseJson i v) ++ ['\n'] ∧
      '\n' ∉ renderJson (responseJson i v)) ∧
    stdoutMsgs (session_loop g env lines fs).1 = [] :=
  ⟨stderrLines_eq_answeredRequests g env lines fs,
   answeredRequests_decode_lines g env lines fs,
   fun _ _ => ⟨rfl, renderJson_ne_nl _⟩,
   stdoutMsgs_session_loop g env lines fs⟩

set_option maxRecDepth 8000 in
/-- Witness for C7: on a two-line input the first answered request decodes
from the first line and carries id 1, which its reply echoes. -/
theorem runtime_replies_single_stderr_lines_witness :
    ∃ line, [exManifestLine, exGenerateLine].get? 0 = some line ∧
      decodeRequest line =
        some (⟨"getManifest", RpcId.num 1, Json.null⟩ : Request) :=
  (runtime_replies_single_stderr_lines demoGen okEnv
      [exManifestLine, exGenerateLine] fs0).2.1 0
    (⟨"getManifest", RpcId.num 1, Json.null⟩, manifestJson demoGen) (by decide)

/-! ## Filesystem lemmas -/

theorem lookupFile_setFile_self :
    ∀ (fls : List (FsPath × String)) (p : FsPath) (c : String),
      lookupFile (setFile fls p c) p = some c
| [], p, c => by simp [setFile, lookupFile]
| (q, d) :: rest, p, c => by
  by_cases h : q = p
  · simp [setFile, lookupFile, h]
  · simp only [setFile, if_neg h, lookupFile]
    exact lookupFile_setFile_self rest p c

theorem lookupFile_setFile_ne :
    ∀ (fls : List (FsPath × String)) (p q : FsPath) (c : String), q ≠ p →
      lookupFile (setFile fls p c) q = lookupFile fls q
| [], p, q, c, h => by
  simp only [setFile, lookupFile]
  rw [if_neg (fun hh => h hh.symm)]
| (r, d) :: rest, p, q, c, h => by
  by_cases hr : r = p
  · subst hr
    simp only [setFile, if_pos rfl, lookupFile]
    rw [if_neg (fun hh => h hh.symm), if_neg (fun hh => h hh.symm)]
  · simp only [setFile, if_neg hr, lookupFile]
    by_cases hq : r = q
    · rw [if_pos hq, if_pos hq]
    · rw [if_neg hq, if_neg hq]
      exact lookupFile_setFile_ne rest p q c h

theorem mem_insertDir_of_mem (ds : List FsPath) (e d : FsPath) (h : d ∈ ds) :
    d ∈ insertDir ds e := by
  unfold insertDir
  split
  · exact h
  · exact List.mem_append_left _ h

theorem mem_insertDir_self (ds : List FsPath) (d : FsPath) : d ∈ insertDir ds d := by
  unfold insertDir
  split
  · assumption
  · exact List.mem_append_right _ (List.mem_singleton.mpr rfl)

theorem mem_foldl_insertDir_of_mem :
    ∀ (l : List FsPath) (ds : List FsPath) (d : FsPath), d ∈ ds →
      d ∈ l.foldl insertDir ds
| [], _, _, h => h
| x :: xs, ds, d, h =>
  mem_foldl_insertDir_of_mem xs (insertDir ds x) d (mem_insertDir_of_mem ds x d h)

theorem mem_foldl_insertDir_self :
    ∀ (l : List FsPath) (ds : List FsPath) (d : FsPath), d ∈ l →
      d ∈ l.foldl insertDir ds
| x :: xs, ds, d, h => by
  rcases List.mem_cons.mp h with h | h
  · subst h
    exact mem_foldl_insertDir_of_mem xs (insertDir ds d) d (mem_insertDir_self ds d)
  · exact mem_foldl_insertDir_self xs (insertDir ds x) d h

theorem foldl_insertDir_of_all_mem :
    ∀ (l : List FsPath) (ds : List FsPath), (∀ d ∈ l, d ∈ ds) →
      l.foldl insertDir ds = ds
| [], ds, _ => rfl
| x :: xs, ds, h => by
  have hx : insertDir ds x = ds := by
    unfold insertDir
    rw [if_pos (h x (List.mem_cons_self _ _))]
  rw [List.foldl_cons, hx]
  exact foldl_insertDir_of_all_mem xs ds (fun d hd => h d (List.mem_cons_of_mem _ hd))

theorem length_le_of_mem_nonemptyAncestors :
    ∀ (p q : FsPath), q ∈ nonemptyAncestors p → q.length ≤ p.length
| [], q, h => by simp [nonemptyAncestors] at h
| x :: xs, q, h => by
  simp only [nonemptyAncestors] at h
  rcases List.mem_cons.mp h with h | h
  · subst h
    simp
  · obtain ⟨q2, hq2, rfl⟩ := List.mem_map.mp h
    have := length_le_of_mem_nonemptyAncestors xs q2 hq2
    simp only [List.length_cons]
    omega

/-- An ancestor of the (parent of the) target path is never the target path
itself. -/
theorem mem_ancestors_dropLast_ne (p q : FsPath)
    (h : q ∈ nonemptyAncestors p.dropLast) : q ≠ p := by
  intro heq
  have hlen := length_le_of_mem_nonemptyAncestors p.dropLast q h
  rw [heq, List.length_dropLast] at hlen
  cases p with
  | nil => simp [nonemptyAncestors] at h
  | cons x xs =>
    simp only [List.length_cons] at hlen
    omega

/-- Anatomy of a successful `create_generated_file` run: no ancestor of the
parent was a file, and the result adds the directory chain and the truncated
file. -/
theorem create_generated_file_ok (fs fs' : FS) (p : FsPath)
    (h : create_generated_file fs p = (fs', none)) :
    (nonemptyAncestors p.dropLast).any (fun q => fs.isFile q) = false ∧
    fs' = ⟨(nonemptyAncestors p.dropLast).foldl insertDir fs.dirs,
           setFile fs.files p ""⟩ := by
  unfold create_generated_file create_dir_all at h
  by_cases hC : (nonemptyAncestors p.dropLast).any (fun q => fs.isFile q) = true
  · rw [if_pos hC] at h
    simp at h
  · rw [if_neg hC] at h
    simp only at h
    by_cases hp : p ∈ ((nonemptyAncestors p.dropLast).foldl insertDir fs.dirs)
    · rw [if_pos hp] at h
      simp at h
    · rw [if_neg hp] at h
      refine ⟨Bool.not_eq_true _ ▸ hC, ?_⟩
      injection h with h1 h2
      exact h1.symm

/-- On a successful write the bytes land appended to the file's content. -/
theorem fileWrite_ok_content (env : Env) (fs fs2 : FS) (p : FsPath)
    (bytes c : String) (h : fileWrite env fs p bytes = (fs2, true))
    (hc : lookupFile fs.files p = some c) :
    lookupFile fs2.files p = some (c ++ bytes) := by
  unfold fileWrite at h
  by_cases hw : env.writeOk bytes
  · rw [if_pos hw, hc] at h
    simp only at h
    injection h with h1 h2
    rw [← h1]
    exact lookupFile_setFile_self fs.files p (c ++ bytes)
  · rw [if_neg hw] at h
    simp at h

/-- Prefixing the empty string is the identity. -/
theorem empty_string_append (s : String) : "" ++ s = s := rfl


/-- Claim C3: when the datamodel compiles and the pipeline completes, the
output file's bytes are exactly the header line
`// Code generated by <displayName>. DO NOT EDIT`, a blank line, and then
the emission capability's returned string unmodified. -/
theorem runtime_output_file_content (g : GeneratorMetadata) (env : Env)
    (dmmf : EngineDMMF) (fs fs' : FS) (cfg : Configuration) (dm : Datamodel)
    (s : String)
    (hp : env.parse_schema dmmf.datamodel = Except.ok (cfg, dm))
    (hemit : g.generate_fn ⟨dm, env.build_schema dm cfg, dmmf.datamodel, dmmf.datasources⟩
        dmmf.generator.config = Except.ok s)
    (hgen : generate g env dmmf fs = (fs', none)) :
    lookupFile fs'.files (parsePath dmmf.generator.output) =
      some (header g.name ++ s) := by
  unfold generate at hgen
  rw [hp] at hgen
  simp only at hgen
  cases hcf : create_generated_file fs (parsePath dmmf.generator.output) with
  | mk fs1 o =>
    rw [hcf] at hgen
    cases o with
    | some msg => simp at hgen
    | none =>
      simp only at hgen
      cases hv : env.validate_names
          ⟨dm, env.build_schema dm cfg, dmmf.datamodel, dmmf.datasources⟩ with
      | error msg => rw [hv] at hgen; simp at hgen
      | ok u =>
        rw [hv] at hgen
        simp only at hgen
        rw [hemit] at hgen
        simp only at hgen
        cases hw1 : fileWrite env fs1 (parsePath dmmf.generator.output) (header g.name) with
        | mk fs2 ok1 =>
          rw [hw1] at hgen
          cases ok1 with
          | false => simp at hgen
          | true =>
            simp only at hgen
            cases hw2 : fileWrite env fs2 (parsePath dmmf.generator.output) s with
            | mk fs3 ok2 =>
              rw [hw2] at hgen
              cases ok2 with
              | false => simp at hgen
              | true =>
                simp only at hgen
                injection hgen with h1 h2
                subst h1
                obtain ⟨hany, rfl⟩ := create_generated_file_ok fs fs1
                  (parsePath dmmf.generator.output) hcf
                have h0 : lookupFile (setFile fs.files (parsePath dmmf.generator.output) "")
                    (parsePath dmmf.generator.output) = some "" :=
                  lookupFile_setFile_self fs.files _ ""
                have hh1 := fileWrite_ok_content env _ fs2 _ (header g.name) "" hw1 h0
                rw [empty_string_append] at hh1
                exact fileWrite_ok_content env fs2 fs3 _ s (header g.name) hw2 hh1

set_option maxRecDepth 8000 in
/-- Witness for C3 at the demo generator and a cooperative environment. -/
theorem runtime_output_file_content_witness :
    lookupFile exFsAfterGen.files (parsePath exDmmf.generator.output) =
      some (header demoGen.name ++ "export const x = 1;") :=
  runtime_output_file_content demoGen okEnv exDmmf fs0 exFsAfterGen
    ⟨"model"⟩ ⟨"model"⟩ "export const x = 1;" rfl rfl rfl

/-- Claim C9: a successful `create_generated_file` has made every (nonempty)
ancestor directory of the target path exist, and directory creation is
idempotent: with the directories already existing, running the
directory-creation step again does not fail and leaves the filesystem
unchanged. -/
theorem runtime_dirs_created_and_idempotent (fs fs' : FS) (p : FsPath)
    (h : create_generated_file fs p = (fs', none)) :
    (∀ d ∈ nonemptyAncestors p.dropLast, d ∈ fs'.dirs) ∧
    create_dir_all fs' p.dropLast = Except.ok fs' := by
  obtain ⟨hany, rfl⟩ := create_generated_file_ok fs fs' p h
  have hmem : ∀ d ∈ nonemptyAncestors p.dropLast,
      d ∈ (nonemptyAncestors p.dropLast).foldl insertDir fs.dirs :=
    fun d hd => mem_foldl_insertDir_self _ _ _ hd
  refine ⟨hmem, ?_⟩
  unfold create_dir_all
  have hnof : (nonemptyAncestors p.dropLast).any
      (fun q => FS.isFile ⟨(nonemptyAncestors p.dropLast).foldl insertDir fs.dirs,
        setFile fs.files p ""⟩ q) = false := by
    rw [List.any_eq_false]
    intro q hq
    have hne : q ≠ p := mem_ancestors_dropLast_ne p q hq
    have hfs : FS.isFile ⟨(nonemptyAncestors p.dropLast).foldl insertDir fs.dirs,
        setFile fs.files p ""⟩ q = fs.isFile q := by
      unfold FS.isFile
      simp only
      rw [lookupFile_setFile_ne fs.files p q "" hne]
    rw [hfs]
    have := List.any_eq_false.mp hany q hq
    simpa using this
  rw [if_neg (by rw [hnof]; exact Bool.false_ne_true)]
  rw [foldl_insertDir_of_all_mem _ _ hmem]

/-- Witness for C9 at the demo output path on the empty filesystem. -/
theorem runtime_dirs_created_and_idempotent_witness :
    (∀ d ∈ nonemptyAncestors (parsePath "./gen/demo.ts").dropLast,
        d ∈ exFsCreated.dirs) ∧
    create_dir_all exFsCreated (parsePath "./gen/demo.ts").dropLast =
      Except.ok exFsCreated :=
  runtime_dirs_created_and_idempotent fs0 exFsCreated (parsePath "./gen/demo.ts") rfl

/-- Claim C4 counterexample: a failing generation run can leave a partial
output file behind.  With every capability succeeding but the second file
write (the generated code) failing, the run fails after the header write:
the target path holds a file containing only the header — a partial output
file — refuting the claim that no partial output file is ever left behind
on a failing run. -/
theorem runtime_no_partial_file_counterexample :
    (generate demoGen cexEnv exDmmf fs0).2 = some "Failed to write generated code" ∧
    lookupFile (generate demoGen cexEnv exDmmf fs0).1.files
        (parsePath exDmmf.generator.output) = some (header "demo") ∧
    header "demo" ≠ header "demo" ++ "export const x = 1;" := by
  refine ⟨by decide, by decide, by decide⟩

/-- Claim C4 amended: failures before the output file is opened (EngineManifest
shape mismatch, datamodel compile failure) leave the filesystem untouched; a
name-validation failure is reported before any bytes are written to the
output file — but the file has by then been created and truncated, so a
name-validation failure and an emission failure each leave an empty file at
the target path (and a failed write after the header leaves a partially
written one, per the counterexample). -/
theorem runtime_failure_file_state :
    (∀ (g : GeneratorMetadata) (env : Env) (dmmf : EngineDMMF) (fs : FS) (e : String),
      env.parse_schema dmmf.datamodel = Except.error e →
      generate g env dmmf fs = (fs, some "Failed to parse datamodel")) ∧
    (∀ (g : GeneratorMetadata) (env : Env) (req : Request) (fs : FS),
      req.method = "generate" → decodeEngineManifest req.params = none →
      handle g env req fs = (fs, Except.error dmmfPanicMsg)) ∧
    (∀ (g : GeneratorMetadata) (env : Env) (dmmf : EngineDMMF) (fs fs1 : FS)
       (cfg : Configuration) (dm : Datamodel) (e : String),
      env.parse_schema dmmf.datamodel = Except.ok (cfg, dm) →
      create_generated_file fs (parsePath dmmf.generator.output) = (fs1, none) →
      env.validate_names ⟨dm, env.build_schema dm cfg, dmmf.datamodel, dmmf.datasources⟩ =
        Except.error e →
      generate g env dmmf fs = (fs1, some e) ∧
      lookupFile fs1.files (parsePath dmmf.generator.output) = some "") ∧
    (∀ (g : GeneratorMetadata) (env : Env) (dmmf : EngineDMMF) (fs fs1 : FS)
       (cfg : Configuration) (dm : Datamodel) (e : String),
      env.parse_schema dmmf.datamodel = Except.ok (cfg, dm) →
      create_generated_file fs (parsePath dmmf.generator.output) = (fs1, none) →
      env.validate_names ⟨dm, env.build_schema dm cfg, dmmf.datamodel, dmmf.datasources⟩ =
        Except.ok () →
      g.generate_fn ⟨dm, env.build_schema dm cfg, dmmf.datamodel, dmmf.datasources⟩
        dmmf.generator.config = Except.error e →
      generate g env dmmf fs = (fs1, some e) ∧
      lookupFile fs1.files (parsePath dmmf.generator.output) = some "") := by
  refine ⟨?_, ?_, ?_, ?_⟩
  · intro g env dmmf fs e h
    unfold generate
    rw [h]
  · intro g env req fs hm hdm
    simp [handle, hm, hdm]
  · intro g env dmmf fs fs1 cfg dm e hp hcf hv
    constructor
    · unfold generate
      rw [hp]
      simp only
      rw [hcf]
      simp only
      rw [hv]
    · obtain ⟨hany, rfl⟩ := create_generated_file_ok fs fs1
        (parsePath dmmf.generator.output) hcf
      exact lookupFile_setFile_self fs.files _ ""
  · intro g env dmmf fs fs1 cfg dm e hp hcf hv hemit
    constructor
    · unfold generate
      rw [hp]
      simp only
      rw [hcf]
      simp only
      rw [hv]
      simp only
      rw [hemit]
    · obtain ⟨hany, rfl⟩ := create_generated_file_ok fs fs1
        (parsePath dmmf.generator.output) hcf
      exact lookupFile_setFile_self fs.files _ ""

/-- Witness for the amended C4: a compile failure leaves the empty filesystem
untouched, and a name-validation failure and an emission failure each leave
exactly the created empty file. -/
theorem runtime_failure_file_state_witness :
    generate demoGen parseFailEnv exDmmf fs0 = (fs0, some "Failed to parse datamodel") ∧
    (generate demoGen valFailEnv exDmmf fs0 = (exFsCreated, some "name collision") ∧
     lookupFile exFsCreated.files (parsePath exDmmf.generator.output) = some "") ∧
    (generate emitFailGen okEnv exDmmf fs0 = (exFsCreated, some "emission panicked") ∧
     lookupFile exFsCreated.files (parsePath exDmmf.generator.output) = some "") :=
  ⟨runtime_failure_file_state.1 demoGen parseFailEnv exDmmf fs0 "P1012" rfl,
   runtime_failure_file_state.2.2.1 demoGen valFailEnv exDmmf fs0 exFsCreated
     ⟨"model"⟩ ⟨"model"⟩ "name collision" rfl rfl rfl,
   runtime_failure_file_state.2.2.2 emitFailGen okEnv exDmmf fs0 exFsCreated
     ⟨"model"⟩ ⟨"model"⟩ "emission panicked" rfl rfl rfl rfl⟩
